import Mathlib

/-!
Verification development for the IT Service Desk voice-agent backend
(src/backend/server.py).  The Python service is shallowly embedded:

* JSON values (Python dicts produced and consumed by the handlers and the
  websocket relay) are modelled by the inductive type JVal; dict key order
  is preserved as assoc-list order, and lookup is first-match (all dicts
  built by the service have distinct keys).
* The Mongo collections are modelled as Lean lists of typed documents
  (Ticket, Incident, KBArticle) holding exactly the fields the service
  writes; timestamps are abstract Nat values threaded explicitly.
* Awaited single-document store operations (find_one, update_one,
  delete_one, insert_one) are modelled as pure list operations with
  first-match semantics, matching the natural-order semantics the service
  relies on.  The unique index on ticket_id is modelled by the insertion
  oracle mongoInsertOutcome.
* Python exceptions that escape a handler are modelled with Except; the
  dispatcher converts them to structured results exactly as the source
  does.  Wire serialization (json.dumps) is elided: emitted frames carry
  the structured value that the source serializes.
-/

/-- JSON-like values: the Python dict/list/scalar universe manipulated by
server.py.  Floats do not occur in any modelled code path and are omitted. -/
inductive JVal where
  | null
  | b (v : Bool)
  | i (v : Int)
  | s (v : String)
  | arr (items : List JVal)
  | obj (fields : List (String × JVal))

/-- First-match lookup in a modelled Python dict (dicts built by the service
have distinct keys, so first-match equals dict lookup). -/
def lookupField : List (String × JVal) → String → Option JVal
  | [], _ => none
  | (k, v) :: rest, key => if k == key then some v else lookupField rest key

/-- Models Python d[k] / d.get(k): some v when the key is present. -/
def JVal.get : JVal → String → Option JVal
  | .obj fields, k => lookupField fields k
  | _, _ => none

/-- Models Python d.get(k, default). -/
def jget (j : JVal) (k : String) (d : JVal) : JVal := (j.get k).getD d

/-- Models a Python == comparison between an arbitrary value and a string
literal: only equal strings compare equal. -/
def jvalIsStr (v : JVal) (t : String) : Bool :=
  match v with
  | .s x => x == t
  | _ => false

/-- Models Python str.upper() (character-wise, as for the ASCII identifiers
this service handles). -/
def pyUpper (s : String) : String := String.mk (s.data.map Char.toUpper)

/-- Models Python str.lower(). -/
def pyLower (s : String) : String := String.mk (s.data.map Char.toLower)

/-- Comma-space join used when rendering container values. -/
def joinWith (sep : String) : List String → String
  | [] => ""
  | [x] => x
  | x :: xs => x ++ sep ++ joinWith sep xs

/-- Models the Python str() conversion applied by the f-strings in
server.py.  Every value those f-strings receive in a modelled code path is
a scalar, where the rendering below is exact; the container cases (reachable
only with a non-scalar title or tool name, which the tool schema rules out)
render the structure without Python quote marks.  The fuel argument only
drives structural recursion and exceeds any nesting depth that occurs. -/
def pyStrDepth : Nat → JVal → String
  | _, .null => "None"
  | _, .b true => "True"
  | _, .b false => "False"
  | _, .i n => toString n
  | _, .s v => v
  | 0, .arr _ => "[...]"
  | 0, .obj _ => "[...]"
  | d + 1, .arr items => "[" ++ joinWith ", " (items.map (pyStrDepth d)) ++ "]"
  | d + 1, .obj fields =>
      "\x7b" ++ joinWith ", " (fields.map (fun kv => kv.1 ++ ": " ++ pyStrDepth d kv.2)) ++ "\x7d"

/-- Entry point for the modelled str() conversion. -/
def pyStr (v : JVal) : String := pyStrDepth 1000 v

/-- Boolean prefix test on character lists. -/
def isPrefixChars : List Char → List Char → Bool
  | [], _ => true
  | _ :: _, [] => false
  | a :: as, b :: bs => a == b && isPrefixChars as bs

/-- Boolean substring test on character lists, modelling the Python
membership test needle in hay. -/
def containsChars (needle : List Char) : List Char → Bool
  | [] => isPrefixChars needle []
  | c :: rest => isPrefixChars needle (c :: rest) || containsChars needle rest

/-- Models the source test for a Mongo uniqueness conflict:
"duplicate key" in str(e).lower(). -/
def isDuplicateKeyError (msg : String) : Bool :=
  containsChars ("duplicate key".data) ((pyLower msg).data)

/-- The apostrophe character, used in one source message string. -/
def apos : String := String.singleton (Char.ofNat 39)

/-- Decimal digit characters. -/
def digitChar : Nat → Char
  | 0 => '0'
  | 1 => '1'
  | 2 => '2'
  | 3 => '3'
  | 4 => '4'
  | 5 => '5'
  | 6 => '6'
  | 7 => '7'
  | 8 => '8'
  | 9 => '9'
  | _ => '9'

/-- Numeric value of a decimal digit character. -/
def digitVal (c : Char) : Nat := c.toNat - 48

/-- Fuel-driven decimal rendering of a natural number (most significant
digit first); the fuel bounds the number of digits and is always supplied
large enough. -/
def natDigitsGo : Nat → Nat → List Char
  | 0, _ => []
  | fuel + 1, n =>
      if n < 10 then [digitChar n]
      else natDigitsGo fuel (n / 10) ++ [digitChar (n % 10)]

/-- Decimal digit string of a natural number, models the digits produced by
Python decimal formatting. -/
def natDigits (n : Nat) : List Char := natDigitsGo (n + 1) n

/-- Models the Python format specifier 03d: decimal digits left-padded with
zeros to a minimum width of three. -/
def pad3 (n : Nat) : String :=
  String.mk (List.replicate (3 - (natDigits n).length) '0' ++ natDigits n)

/-- Value of a decimal digit string, most significant digit first. -/
def digitsToNat (l : List Char) : Nat :=
  l.foldl (fun a c => a * 10 + digitVal c) 0

/-- Models Python int() applied to the ticket-id suffixes scanned by
handle_create_ticket: all such inputs are nonempty all-digit strings, on
which int() succeeds with the decimal value; other inputs raise ValueError
(modelled as none). -/
def pyIntOfDigits? (l : List Char) : Option Nat :=
  if l ≠ [] ∧ l.all Char.isDigit then some (digitsToNat l) else none

/-- Models the Mongo filter regex on ticket ids: TKT- followed by one or
more decimal digits and nothing else. -/
def matchesTicketPattern (s : String) : Bool :=
  match s.data with
  | 'T' :: 'K' :: 'T' :: '-' :: rest => !rest.isEmpty && rest.all Char.isDigit
  | _ => false

/-- Models int(doc.ticket_id.split("-")[1]) for identifiers accepted by the
filter regex: for such identifiers the split has exactly two components and
the second is the character sequence after the four-character TKT- prefix. -/
def parseTicketSuffix? (s : String) : Option Nat :=
  pyIntOfDigits? (s.data.drop 4)

/-- One step of the max-suffix scan in handle_create_ticket: parse the
suffix and keep it when it exceeds the running maximum; a parse failure is
swallowed (try/except pass in the source). -/
def scanStep (last : Nat) (s : String) : Nat :=
  match parseTicketSuffix? s with
  | some n => if n > last then n else last
  | none => last

/-- Models the cursor scan at the top of handle_create_ticket: fold the
max-suffix step over every stored id matching the TKT regex, starting
from 0. -/
def scanLastNum (ids : List String) : Nat :=
  (ids.filter matchesTicketPattern).foldl scanStep 0

/-- Ticket documents as written by the service (tickets collection). -/
structure Ticket where
  ticket_id : String
  title : String
  description : String
  priority : String
  category : String
  status : String
  user : String
  created_at : Nat
  updated_at : Nat
  resolution : Option String
deriving Repr, DecidableEq

/-- Priority-incident documents as seeded and mutated by the service
(priority_incidents collection).  The affected counter is an Int: the store
imposes no lower bound on the value. -/
structure Incident where
  incident_id : String
  priority : String
  title : String
  status : String
  since : String
  affected : Int
  description : String
  active : Bool
deriving Repr, DecidableEq

/-- Knowledge-base articles as written by the service (knowledge_base
collection). -/
structure KBArticle where
  article_id : String
  title : String
  content : String
  category : String
  tags : List String
  source : String
  created_at : Nat
deriving Repr, DecidableEq

/-- Outcome of one insert_one call against the tickets collection, as seen
by the retry loop: success, or an exception whose str() is msg.  The
uniqueness conflict raised by the unique ticket_id index carries a
duplicate-key message. -/
inductive InsertOutcome where
  | ok
  | err (msg : String)
deriving Repr, DecidableEq

/-- Insertion semantics of a collection with a unique index on ticket_id
and no concurrent writers: inserting an id already present raises the
duplicate-key error, any other insert succeeds. -/
def mongoInsertOutcome (ids : List String) (ticket_id : String) : InsertOutcome :=
  if ids.contains ticket_id then .err "E11000 duplicate key error" else .ok

/-- Candidate identifier tried by attempt number attempt of the retry loop:
TKT-(last_num + 1 + attempt) zero-padded to three digits. -/
def candidateTicketId (last_num attempt : Nat) : String :=
  "TKT-" ++ pad3 (last_num + 1 + attempt)

/-- Result dict returned by handle_create_ticket on a successful insert. -/
def createSuccessObj (ticket_id title priority : String) : JVal :=
  .obj [("success", .b true), ("ticket_id", .s ticket_id),
        ("message", .s ("Ticket " ++ ticket_id ++ " created successfully. Title: " ++
                        title ++ ". Priority: " ++ priority ++ "."))]

/-- Result dict returned by handle_create_ticket when an insert fails and is
not retried. -/
def createFailObj (msg : String) : JVal :=
  .obj [("success", .b false), ("message", .s ("Failed to create ticket: " ++ msg))]

/-- The retry loop of handle_create_ticket, iterating over the remaining
attempt numbers (the source loops attempt = 0, 1, 2).  Each iteration reads
args of title and of description (a missing key raises KeyError, modelled
with Except.error), builds the candidate id, and attempts insertion; a
duplicate-key failure with attempts remaining (attempt < 2) continues the
loop, any other failure returns the generic failure dict.  The empty-list
case is the statement after the loop in the source. -/
def createAttempts (insert : String → InsertOutcome) (last_num : Nat) (args : JVal) :
    List Nat → Except String JVal
  | [] => .ok (.obj [("success", .b false),
                     ("message", .s "Failed to create ticket after multiple attempts.")])
  | attempt :: rest =>
    let ticket_id := candidateTicketId last_num attempt
    match args.get "title" with
    | none => .error "KeyError: title"
    | some titleV =>
      match args.get "description" with
      | none => .error "KeyError: description"
      | some _ =>
        match insert ticket_id with
        | .ok =>
            .ok (createSuccessObj ticket_id (pyStr titleV)
                  (pyStr ((args.get "priority").getD (.s "medium"))))
        | .err msg =>
            if isDuplicateKeyError msg = true ∧ attempt < 2 then
              createAttempts insert last_num args rest
            else .ok (createFailObj msg)

/-- Models handle_create_ticket: scan the stored ids for the maximal TKT
suffix, then run the three-attempt retry loop.  The insertion oracle insert
gives the outcome insert_one would produce for each candidate id (for the
sequential store semantics instantiate it with mongoInsertOutcome ids). -/
def handle_create_ticket (insert : String → InsertOutcome) (ids : List String)
    (args : JVal) : Except String JVal :=
  createAttempts insert (scanLastNum ids) args [0, 1, 2]

/-- Argument dict for create_ticket with all four schema fields present. -/
def mkCreateArgs (title description priority category : String) : JVal :=
  .obj [("title", .s title), ("description", .s description),
        ("priority", .s priority), ("category", .s category)]

/-- Models the REST delete_ticket endpoint restricted to its effect on the
tickets collection: delete_one removes the first document whose ticket_id
equals the uppercased path parameter; none models the 404 raised when
deleted_count is 0. -/
def removeFirstTicket : List Ticket → String → Option (List Ticket)
  | [], _ => none
  | d :: rest, tid =>
    if d.ticket_id == tid then some rest
    else match removeFirstTicket rest tid with
      | some r => some (d :: r)
      | none => none

/-- Models delete_ticket (DELETE /api/tickets/...). -/
def delete_ticket (tickets : List Ticket) (ticket_id : String) : Option (List Ticket) :=
  removeFirstTicket tickets (pyUpper ticket_id)

/-- Extracts the note argument of update_ticket_status:
args.get("note", "").  Non-string note values, which the tool schema rules
out, are not representable in the typed Ticket record and are treated like
the absent-note default. -/
def noteArg (args : JVal) : String :=
  match args.get "note" with
  | some (.s v) => v
  | _ => ""

/-- Document update applied by update_ticket_status to the matched ticket:
set status and updated_at, and set resolution exactly when the note is
truthy (a nonempty string). -/
def updateTicketDoc (status note : String) (now : Nat) (d : Ticket) : Ticket :=
  if note ≠ "" then { d with status := status, updated_at := now, resolution := some note }
  else { d with status := status, updated_at := now }

/-- Models update_one on the tickets collection with filter (ticket_id =
tid): update the first matching document; none models matched_count = 0. -/
def updateOneTicket (tid status note : String) (now : Nat) :
    List Ticket → Option (List Ticket)
  | [] => none
  | d :: rest =>
    if d.ticket_id == tid then some (updateTicketDoc status note now d :: rest)
    else match updateOneTicket tid status note now rest with
      | some r => some (d :: r)
      | none => none

/-- Models handle_update_ticket_status: uppercase the id, set status and
updated_at (and resolution when a nonempty note is supplied) on the first
matching ticket, report not-found when nothing matched.  A missing
ticket_id or status key raises KeyError; a non-string ticket_id makes
.upper() raise AttributeError (non-string status values are outside the
typed document model and the tool schema). -/
def handle_update_ticket_status (tickets : List Ticket) (args : JVal) (now : Nat) :
    Except String (JVal × List Ticket) :=
  match args.get "ticket_id" with
  | some (.s rawId) =>
    match args.get "status" with
    | some (.s status) =>
      let ticket_id := pyUpper rawId
      match updateOneTicket ticket_id status (noteArg args) now tickets with
      | none =>
          .ok (.obj [("success", .b false),
                     ("message", .s ("Ticket " ++ ticket_id ++ " not found."))], tickets)
      | some tickets2 =>
          .ok (.obj [("success", .b true),
                     ("message", .s ("Ticket " ++ ticket_id ++ " updated to status: " ++
                                     status ++ "."))], tickets2)
    | some _ => .error "unsupported status value"
    | none => .error "KeyError: status"
  | some _ => .error "AttributeError: upper"
  | none => .error "KeyError: ticket_id"

/-- Models update_one on the priority_incidents collection with filter
(incident_id = iid) and an $inc of v on affected: increment the first
matching document, return the list unchanged when nothing matches (the
handler ignores matched_count here). -/
def updateOneIncidentInc (iid : String) (v : Int) : List Incident → List Incident
  | [] => []
  | d :: rest =>
    if d.incident_id == iid then { d with affected := d.affected + v } :: rest
    else d :: updateOneIncidentInc iid v rest

/-- Models handle_add_me_to_priority_incident: uppercase the id, find_one
with filter (incident_id, active = True); on a miss return the structured
not-found result with the store untouched; on a hit, $inc the affected
counter of the first document matching the id and answer with the count
read from the found document plus one. -/
def handle_add_me_to_priority_incident (incidents : List Incident) (args : JVal) :
    Except String (JVal × List Incident) :=
  match args.get "incident_id" with
  | some (.s raw) =>
    let incident_id := pyUpper raw
    match incidents.find? (fun d => d.incident_id == incident_id && d.active) with
    | none =>
        .ok (.obj [("success", .b false),
                   ("message", .s ("Incident " ++ incident_id ++
                                   " not found or is no longer active."))], incidents)
    | some doc =>
        let incidents2 := updateOneIncidentInc incident_id 1 incidents
        let new_count := doc.affected + 1
        .ok (.obj [("success", .b true),
                   ("incident_id", .s incident_id),
                   ("title", .s doc.title),
                   ("affected", .i new_count),
                   ("message", .s ("You" ++ apos ++ "ve been added as impacted on " ++
                                   incident_id ++ " (" ++ doc.title ++
                                   "). Total impacted users: " ++ toString new_count ++ "."))],
             incidents2)
  | some _ => .error "AttributeError: upper"
  | none => .error "KeyError: incident_id"

/-- Models update_one on the priority_incidents collection with filter
(incident_id = iid, active = True) and an $inc of v on affected, as issued
by the toggle endpoint; none models matched_count = 0. -/
def updateOneIncidentActiveInc (iid : String) (v : Int) :
    List Incident → Option (List Incident)
  | [] => none
  | d :: rest =>
    if d.incident_id == iid && d.active then
      some ({ d with affected := d.affected + v } :: rest)
    else match updateOneIncidentActiveInc iid v rest with
      | some r => some (d :: r)
      | none => none

/-- Models toggle_affected (POST /api/priority-incidents/.../affected):
read action from the body with default add, apply $inc of +1 for add and -1
otherwise to the first active document with the uppercased id, raise 404
(modelled as Except.error) when nothing matched, then answer with the
affected value read back by find_one on the id alone. -/
def toggle_affected (incidents : List Incident) (incident_id : String) (body : JVal) :
    Except String (JVal × List Incident) :=
  let inc_val : Int := if jvalIsStr (jget body "action" (.s "add")) "add" then 1 else -1
  match updateOneIncidentActiveInc (pyUpper incident_id) inc_val incidents with
  | none => .error "404: Incident not found"
  | some incidents2 =>
    match incidents2.find? (fun d => d.incident_id == pyUpper incident_id) with
    | none => .error "AttributeError: get"
    | some doc => .ok (.obj [("success", .b true), ("affected", .i doc.affected)], incidents2)


/-- Reads a string field of an LLM-extracted article dict with a default,
modelling art.get(key, default) for the string-valued fields of
upload_kb_document (non-string values are outside the typed article
model). -/
def jgetStr (j : JVal) (k : String) (d : String) : String :=
  match j.get k with
  | some (.s v) => v
  | _ => d

/-- Reads the tags field of an LLM-extracted article dict, modelling
art.get("tags", []) for string-list values. -/
def jgetTags (j : JVal) : List String :=
  match j.get "tags" with
  | some (.arr vs) => vs.filterMap (fun v => match v with | .s t => some t | _ => none)
  | _ => []

/-- Models create_kb_article (POST /api/kb): allocate the id from the live
document count (count_documents plus one), zero-padded to three digits, and
insert the new article (the collection has no unique index on article_id,
so the insert always succeeds).  Returns the created document and the new
collection state. -/
def create_kb_article (kb : List KBArticle) (title content category : String)
    (tags : List String) (now : Nat) : KBArticle × List KBArticle :=
  let article_num := kb.length + 1
  let article_id := "KB-" ++ pad3 article_num
  let doc : KBArticle :=
    { article_id := article_id, title := title, content := content,
      category := category, tags := tags, source := "manual", created_at := now }
  (doc, kb ++ [doc])

/-- Removes the first article whose id matches, mirroring delete_one; none
models deleted_count = 0. -/
def removeFirstArticle : List KBArticle → String → Option (List KBArticle)
  | [], _ => none
  | a :: rest, target =>
    if a.article_id == target then some rest
    else match removeFirstArticle rest target with
      | some r => some (a :: r)
      | none => none

/-- Models delete_kb_article (DELETE /api/kb/...): delete_one on the
uppercased article_id; none models the 404 raised on deleted_count = 0. -/
def delete_kb_article (kb : List KBArticle) (article_id : String) :
    Option (List KBArticle) :=
  removeFirstArticle kb (pyUpper article_id)

/-- Models the per-article save loop of upload_kb_document: for each
extracted article dict, recount the collection, allocate KB-(count+1) and
insert.  Returns the final collection state and the saved (id, title)
pairs in save order. -/
def upload_save_articles (filename : String) (now : Nat) :
    List KBArticle → List JVal → List KBArticle × List (String × String)
  | kb, [] => (kb, [])
  | kb, art :: rest =>
    let article_num := kb.length + 1
    let article_id := "KB-" ++ pad3 article_num
    let doc : KBArticle :=
      { article_id := article_id,
        title := jgetStr art "title" "Uploaded Article",
        content := jgetStr art "content" "",
        category := jgetStr art "category" "general",
        tags := jgetTags art,
        source := filename, created_at := now }
    let next := upload_save_articles filename now (kb ++ [doc]) rest
    (next.1, (article_id, doc.title) :: next.2)

/-- Models upload_kb_document (POST /api/kb/upload) from the point where the
articles_data list exists (text extraction and the LLM structuring call are
external collaborators; their output is the articles_data argument). -/
def upload_kb_document (kb : List KBArticle) (articles_data : List JVal)
    (filename : String) (now : Nat) : List KBArticle × List (String × String) :=
  upload_save_articles filename now kb articles_data

/-- Knowledge-base operations that allocate identifiers (create and upload);
sequences of these model the deletion-free histories of claim C9. -/
inductive KBOp where
  | createArticle (title content category : String) (tags : List String)
  | uploadDoc (filename : String) (arts : List JVal)

/-- Applies one knowledge-base operation to the collection. -/
def applyKBOp (now : Nat) (kb : List KBArticle) : KBOp → List KBArticle
  | .createArticle t c g tags => (create_kb_article kb t c g tags now).2
  | .uploadDoc f arts => (upload_kb_document kb arts f now).1

/-- Applies a sequence of knowledge-base operations in order. -/
def applyKBOps (now : Nat) (kb : List KBArticle) : List KBOp → List KBArticle
  | [] => kb
  | op :: ops => applyKBOps now (applyKBOp now kb op) ops

/-- Canonical-identifier invariant: the stored article ids are exactly
KB-001 .. KB-n in storage order, n the collection size. -/
def kbIdsCanonical (kb : List KBArticle) : Prop :=
  kb.map (fun a => a.article_id) =
    (List.range kb.length).map (fun i => "KB-" ++ pad3 (i + 1))

/-- Numeric suffix of a KB-NNN identifier (the characters after KB-). -/
def kbSuffix (s : String) : Nat := digitsToNat (s.data.drop 3)

/-- Frames emitted by the relay, in emission order.  toBrowserJson models
websocket.send_json, toBrowserText models the raw passthrough
websocket.send_text, toXai models xai_ws.send of the serialized dict. -/
inductive Frame where
  | toBrowserJson (msg : JVal)
  | toBrowserText (raw : String)
  | toXai (msg : JVal)

/-- The allow-list of client frame types in browser_to_xai. -/
def allowedClientTypes : List String :=
  ["input_audio_buffer.append", "input_audio_buffer.clear",
   "conversation.item.create", "response.create"]

/-- Models the forwarding test of browser_to_xai: msg.get("type") is in the
allow-list (a missing or non-string type never matches). -/
def browserAllows (msg : JVal) : Bool :=
  match msg.get "type" with
  | some (.s t) => allowedClientTypes.contains t
  | _ => false

/-- Models the browser_to_xai pump over the sequence of JSON-parsed client
frames received before disconnect, returning the frames forwarded upstream.
An object frame is forwarded exactly when its type is allowed; msg.get on
a non-object frame raises AttributeError, which the blanket except catches,
ending the pump (so later frames are never processed and the session is
torn down). -/
def browser_to_xai : List JVal → List JVal
  | [] => []
  | msg :: rest =>
    match msg with
    | .obj _ => (if browserAllows msg then [msg] else []) ++ browser_to_xai rest
    | _ => []

/-- Models the function-argument extraction of xai_to_browser:
json.loads(event.get("arguments", "...")), with any failure (parse error, or
a non-string value making json.loads raise) replaced by the empty dict.
The JSON decoder itself is the standard library, passed in as jsonParse. -/
def extractArgs (jsonParse : String → Option JVal) (event : JVal) : JVal :=
  match jget event "arguments" (.s "\x7b\x7d") with
  | .s a => (jsonParse a).getD (.obj [])
  | _ => .obj []

/-- Models the result computation of the dispatcher: resolve the tool name
in the handler table, execute (an escaping exception is converted to the
structured failure dict), and produce the synthetic unknown-function error
dict when the name is not registered.  FUNCTION_HANDLERS.get with an
unhashable name (a list or dict) raises TypeError outside any inner try,
killing the pump; that case is modelled as none. -/
def dispatchResult (handlers : String → Option (JVal → Except String JVal))
    (func_name func_args : JVal) : Option JVal :=
  match func_name with
  | .arr _ => none
  | .obj _ => none
  | .s nm =>
    some (match handlers nm with
      | some h =>
        match h func_args with
        | .ok r => r
        | .error e => .obj [("success", .b false), ("error", .s e),
                            ("message", .s ("Function failed: " ++ e))]
      | none => .obj [("error", .s ("Unknown function: " ++ nm))])
  | other => some (.obj [("error", .s ("Unknown function: " ++ pyStr other))])

/-- Models one iteration body of xai_to_browser for a parsed upstream event:
the emitted frames in order, paired with whether the loop continues.  On the
function-call-arguments-done event the relay emits the started notification
downstream, the function_call_output item and the response continuation
upstream, and the executed notification downstream; every other event is
passed through verbatim.  event.get on a non-dict event raises
AttributeError (loop ends, no frames); an unhashable tool name raises after
the started notification was already sent. -/
def processXaiEvent (jsonParse : String → Option JVal)
    (handlers : String → Option (JVal → Except String JVal))
    (event : JVal) (raw : String) : List Frame × Bool :=
  match event with
  | .obj _ =>
    if jvalIsStr (jget event "type" (.s "")) "response.function_call_arguments.done" then
      let func_name := jget event "name" (.s "")
      let call_id := jget event "call_id" (.s "")
      let func_args := extractArgs jsonParse event
      let started := Frame.toBrowserJson (.obj [("type", .s "function.started"),
                                                ("function", func_name)])
      match dispatchResult handlers func_name func_args with
      | none => ([started], false)
      | some result =>
          ([started,
            .toXai (.obj [("type", .s "conversation.item.create"),
                          ("item", .obj [("type", .s "function_call_output"),
                                         ("call_id", call_id),
                                         ("output", result)])]),
            .toXai (.obj [("type", .s "response.create")]),
            .toBrowserJson (.obj [("type", .s "function.executed"),
                                  ("function", func_name),
                                  ("args", func_args),
                                  ("result", result)])], true)
    else ([.toBrowserText raw], true)
  | _ => ([], false)

/-- Models the xai_to_browser pump over the raw upstream frames received
before disconnect: parse each frame (a parse failure raises out of the loop,
ending the pump) and process it; a processing step that raises ends the
pump, keeping the frames already emitted. -/
def xai_to_browser (jsonParse : String → Option JVal)
    (handlers : String → Option (JVal → Except String JVal)) :
    List String → List Frame
  | [] => []
  | raw :: rest =>
    match jsonParse raw with
    | none => []
    | some event =>
      match processXaiEvent jsonParse handlers event raw with
      | (frames, true) => frames ++ xai_to_browser jsonParse handlers rest
      | (frames, false) => frames

/-- Spec-side restatement of claim C1, written from the claim text: given
the insertion outcomes for the three candidate identifiers, a success on
attempt a yields the success result for TKT-(last+1+a); a uniqueness
conflict retries with the next candidate while attempts remain; any other
failure is reported immediately; after three failed attempts a failure is
reported. -/
def specCreateResult (title priority : String) (last : Nat)
    (o0 o1 o2 : InsertOutcome) : JVal :=
  match o0 with
  | .ok => createSuccessObj (candidateTicketId last 0) title priority
  | .err m0 =>
    if isDuplicateKeyError m0 then
      match o1 with
      | .ok => createSuccessObj (candidateTicketId last 1) title priority
      | .err m1 =>
        if isDuplicateKeyError m1 then
          match o2 with
          | .ok => createSuccessObj (candidateTicketId last 2) title priority
          | .err m2 => createFailObj m2
        else createFailObj m1
    else createFailObj m0

/-- Data of an appended string is the appended data. -/
theorem strData_append (a b : String) : (a ++ b).data = a.data ++ b.data := rfl

/-- A string with a given prefix differs from any string whose initial
characters differ from that prefix. -/
theorem str_append_ne (p m t : String) (h : t.data.take p.data.length ≠ p.data) :
    p ++ m ≠ t := by
  intro he
  apply h
  have hd : p.data ++ m.data = t.data := congrArg String.data he
  rw [← hd, List.take_left]

/-- Digit characters evaluate back to their value and satisfy isDigit. -/
theorem digitChar_spec : ∀ d < 10, digitVal (digitChar d) = d ∧ (digitChar d).isDigit = true := by
  decide

/-- Folding one more digit multiplies the accumulated value by ten. -/
theorem digitsToNat_append_single (l : List Char) (c : Char) :
    digitsToNat (l ++ [c]) = digitsToNat l * 10 + digitVal c := by
  simp [digitsToNat, List.foldl_append]

/-- The fuel-driven digit rendering is nonempty, all digits, and decodes to
its input whenever the fuel exceeds the input. -/
theorem natDigitsGo_spec : ∀ fuel n, n < fuel →
    natDigitsGo fuel n ≠ [] ∧ (natDigitsGo fuel n).all Char.isDigit = true ∧
    digitsToNat (natDigitsGo fuel n) = n := by
  intro fuel
  induction fuel with
  | zero => intro n h; omega
  | succ f ih =>
    intro n h
    by_cases h10 : n < 10
    · obtain ⟨hv, hd⟩ := digitChar_spec n h10
      refine ⟨by simp [natDigitsGo, h10], by simp [natDigitsGo, h10, hd], ?_⟩
      simp [natDigitsGo, h10, digitsToNat, hv]
    · have hdiv : n / 10 < n := Nat.div_lt_self (by omega) (by omega)
      obtain ⟨hne, hall, hval⟩ := ih (n / 10) (by omega)
      obtain ⟨hv, hd⟩ := digitChar_spec (n % 10) (Nat.mod_lt n (by omega))
      refine ⟨by simp [natDigitsGo, h10], ?_, ?_⟩
      · simp [natDigitsGo, h10, List.all_append, hall, hd]
      · rw [show natDigitsGo (f + 1) n = natDigitsGo f (n / 10) ++ [digitChar (n % 10)] by
              simp [natDigitsGo, h10]]
        rw [digitsToNat_append_single, hval, hv]
        omega

/-- The decimal rendering of n is nonempty. -/
theorem natDigits_ne_nil (n : Nat) : natDigits n ≠ [] :=
  (natDigitsGo_spec (n + 1) n (by omega)).1

/-- The decimal rendering of n is all digit characters. -/
theorem natDigits_all_digits (n : Nat) : (natDigits n).all Char.isDigit = true :=
  (natDigitsGo_spec (n + 1) n (by omega)).2.1

/-- The decimal rendering of n decodes to n. -/
theorem digitsToNat_natDigits (n : Nat) : digitsToNat (natDigits n) = n :=
  (natDigitsGo_spec (n + 1) n (by omega)).2.2

/-- Leading zero padding does not change the decoded value. -/
theorem digitsToNat_replicate_zeros (k : Nat) (l : List Char) :
    digitsToNat (List.replicate k '0' ++ l) = digitsToNat l := by
  induction k with
  | zero => rfl
  | succ k ih =>
    have hcons : List.replicate (k + 1) '0' ++ l = '0' :: (List.replicate k '0' ++ l) := by
      simp [List.replicate_succ]
    have h0 : (0 : Nat) * 10 + digitVal '0' = 0 := by decide
    rw [hcons]
    show (List.replicate k '0' ++ l).foldl (fun a c => a * 10 + digitVal c) (0 * 10 + digitVal '0') = digitsToNat l
    rw [h0]
    exact ih

/-- Data view of pad3. -/
theorem pad3_data (n : Nat) :
    (pad3 n).data = List.replicate (3 - (natDigits n).length) '0' ++ natDigits n := rfl

/-- Zero-padded decimal renderings decode to their value. -/
theorem digitsToNat_pad3 (n : Nat) : digitsToNat (pad3 n).data = n := by
  rw [pad3_data, digitsToNat_replicate_zeros, digitsToNat_natDigits]

/-- Zero-padded decimal renderings are nonempty all-digit strings. -/
theorem padded_digits_ok (n : Nat) :
    (pad3 n).data ≠ [] ∧ ((pad3 n).data).all Char.isDigit = true := by
  rw [pad3_data]
  constructor
  · intro hemp
    exact natDigits_ne_nil n (List.append_eq_nil.1 hemp).2
  · rw [List.all_append, Bool.and_eq_true]
    constructor
    · apply List.all_eq_true.2
      intro c hc
      have hc0 : c = '0' := List.eq_of_mem_replicate hc
      subst hc0
      decide
    · exact natDigits_all_digits n

/-- Candidate ticket identifiers match the scan regex. -/
theorem matches_candidate (m a : Nat) :
    matchesTicketPattern (candidateTicketId m a) = true := by
  obtain ⟨hne, hall⟩ := padded_digits_ok (m + 1 + a)
  show (!((pad3 (m + 1 + a)).data).isEmpty && ((pad3 (m + 1 + a)).data).all Char.isDigit) = true
  rcases hl : (pad3 (m + 1 + a)).data with _ | ⟨c, cs⟩
  · exact absurd hl hne
  · rw [hl] at hall
    simp [hall]

/-- Candidate ticket identifiers parse back to their candidate suffix. -/
theorem parse_candidate (m a : Nat) :
    parseTicketSuffix? (candidateTicketId m a) = some (m + 1 + a) := by
  obtain ⟨hne, hall⟩ := padded_digits_ok (m + 1 + a)
  show pyIntOfDigits? (((candidateTicketId m a).data).drop 4) = some (m + 1 + a)
  have hdrop : ((candidateTicketId m a).data).drop 4 = (pad3 (m + 1 + a)).data := rfl
  rw [hdrop, pyIntOfDigits?, if_pos ⟨hne, hall⟩, digitsToNat_pad3]

/-- One scan step never decreases the running maximum. -/
theorem scanStep_ge (init : Nat) (s : String) : init ≤ scanStep init s := by
  unfold scanStep
  cases h : parseTicketSuffix? s with
  | none => exact Nat.le_refl _
  | some n => dsimp only; split <;> omega

/-- One scan step on a parsed id reaches at least the parsed suffix. -/
theorem scanStep_ge_parsed (init : Nat) (s : String) (k : Nat)
    (h : parseTicketSuffix? s = some k) : k ≤ scanStep init s := by
  unfold scanStep
  rw [h]
  dsimp only
  split <;> omega

/-- The scan fold never goes below its initial value. -/
theorem foldl_scanStep_ge_init : ∀ (l : List String) (init : Nat),
    init ≤ l.foldl scanStep init := by
  intro l
  induction l with
  | nil => intro init; exact Nat.le_refl _
  | cons x rest ih =>
    intro init
    exact Nat.le_trans (scanStep_ge init x) (ih (scanStep init x))

/-- The scan fold dominates the suffix of every scanned identifier. -/
theorem foldl_scanStep_ge_mem : ∀ (l : List String) (init : Nat) (s : String) (k : Nat),
    s ∈ l → parseTicketSuffix? s = some k → k ≤ l.foldl scanStep init := by
  intro l
  induction l with
  | nil => intro init s k h _; cases h
  | cons x rest ih =>
    intro init s k hmem hp
    rcases List.mem_cons.1 hmem with heq | htail
    · subst heq
      exact Nat.le_trans (scanStep_ge_parsed init s k hp)
        (foldl_scanStep_ge_init rest (scanStep init s))
    · exact ih (scanStep init x) s k htail hp

/-- scanLastNum dominates the suffix of every stored id matching the
filter regex. -/
theorem scanLastNum_ge (ids : List String) (s : String) (k : Nat)
    (hmem : s ∈ ids) (hpat : matchesTicketPattern s = true)
    (hp : parseTicketSuffix? s = some k) : k ≤ scanLastNum ids := by
  unfold scanLastNum
  exact foldl_scanStep_ge_mem _ 0 s k (List.mem_filter.2 ⟨hmem, hpat⟩) hp

/-- The first candidate identifier is never present in the scanned store:
its suffix strictly exceeds the scanned maximum. -/
theorem candidate_not_mem (ids : List String) (a : Nat) :
    candidateTicketId (scanLastNum ids) a ∉ ids := by
  intro hmem
  have h := scanLastNum_ge ids (candidateTicketId (scanLastNum ids) a)
    (scanLastNum ids + 1 + a) hmem (matches_candidate _ _) (parse_candidate _ _)
  omega

/-- Under distinct ticket ids, first-match update with a witness in the
store equals a pointwise map update. -/
theorem updateOneTicket_eq_map (tid status note : String) (now : Nat) :
    ∀ l : List Ticket, (l.map (fun d => d.ticket_id)).Nodup →
    ∀ d, l.find? (fun x => x.ticket_id == tid) = some d →
    updateOneTicket tid status note now l =
      some (l.map (fun x => if x.ticket_id == tid then updateTicketDoc status note now x else x)) := by
  intro l
  induction l with
  | nil => intro _ d h; cases h
  | cons x rest ih =>
    intro hnd d hfind
    have hnd2 : (rest.map (fun d => d.ticket_id)).Nodup := (List.nodup_cons.1 hnd).2
    by_cases hx : (x.ticket_id == tid) = true
    · have hrest : rest.map (fun y => if y.ticket_id == tid then updateTicketDoc status note now y else y) = rest := by
        have hids : x.ticket_id ∉ rest.map (fun d => d.ticket_id) := (List.nodup_cons.1 hnd).1
        have hcong : ∀ y ∈ rest, (if y.ticket_id == tid then updateTicketDoc status note now y else y) = id y := by
          intro y hy
          have hyne : (y.ticket_id == tid) = false := by
            cases hb : (y.ticket_id == tid) with
            | false => rfl
            | true =>
              exfalso
              apply hids
              rw [eq_of_beq hx, ← eq_of_beq hb]
              exact List.mem_map.2 ⟨y, hy, rfl⟩
          simp [hyne]
        rw [List.map_congr_left hcong, List.map_id]
      simp only [updateOneTicket, hx, if_true, List.map_cons, if_pos hx, hrest]
    · have hx2 : (x.ticket_id == tid) = false := Bool.eq_false_iff.2 hx
      have hfind2 : rest.find? (fun y => y.ticket_id == tid) = some d := by
        rw [List.find?_cons_of_neg _ (by simp [hx2])] at hfind
        exact hfind
      simp only [updateOneTicket, hx2, Bool.false_eq_true, if_false, ih hnd2 d hfind2,
        List.map_cons, if_neg hx]

/-- First-match ticket update misses exactly when no document matches. -/
theorem updateOneTicket_eq_none (tid status note : String) (now : Nat) :
    ∀ l : List Ticket, l.find? (fun x => x.ticket_id == tid) = none →
    updateOneTicket tid status note now l = none := by
  intro l
  induction l with
  | nil => intro _; rfl
  | cons x rest ih =>
    intro hfind
    have hx : (x.ticket_id == tid) = false := by
      cases hb : (x.ticket_id == tid) with
      | false => rfl
      | true =>
        exfalso
        have h2 := List.find?_cons_of_pos (p := fun y => y.ticket_id == tid) rest hb
        rw [h2] at hfind
        cases hfind
    rw [List.find?_cons_of_neg _ (by simp [hx])] at hfind
    simp only [updateOneTicket, hx, Bool.false_eq_true, if_false, ih hfind]

/-- Under distinct incident ids, the id-filtered $inc update equals a
pointwise map update. -/
theorem updateOneIncidentInc_eq_map (iid : String) (v : Int) :
    ∀ l : List Incident, (l.map (fun d => d.incident_id)).Nodup →
    updateOneIncidentInc iid v l =
      l.map (fun x => if x.incident_id == iid then { x with affected := x.affected + v } else x) := by
  intro l
  induction l with
  | nil => intro _; rfl
  | cons x rest ih =>
    intro hnd
    have hnd2 : (rest.map (fun d => d.incident_id)).Nodup := (List.nodup_cons.1 hnd).2
    by_cases hx : (x.incident_id == iid) = true
    · have hrest : rest.map (fun y => if y.incident_id == iid then { y with affected := y.affected + v } else y) = rest := by
        have hids : x.incident_id ∉ rest.map (fun d => d.incident_id) := (List.nodup_cons.1 hnd).1
        have hcong : ∀ y ∈ rest, (if y.incident_id == iid then { y with affected := y.affected + v } else y) = id y := by
          intro y hy
          have hyne : (y.incident_id == iid) = false := by
            cases hb : (y.incident_id == iid) with
            | false => rfl
            | true =>
              exfalso
              apply hids
              rw [eq_of_beq hx, ← eq_of_beq hb]
              exact List.mem_map.2 ⟨y, hy, rfl⟩
          simp [hyne]
        rw [List.map_congr_left hcong, List.map_id]
      simp only [updateOneIncidentInc, hx, if_true, List.map_cons, if_pos hx, hrest]
    · have hx2 : (x.incident_id == iid) = false := Bool.eq_false_iff.2 hx
      simp only [updateOneIncidentInc, hx2, Bool.false_eq_true, if_false, ih hnd2,
        List.map_cons, if_neg hx]

/-- Under distinct incident ids, the active-filtered $inc update with a
matching witness equals a pointwise map update. -/
theorem updateOneIncidentActiveInc_eq_map (iid : String) (v : Int) :
    ∀ l : List Incident, (l.map (fun d => d.incident_id)).Nodup →
    ∀ d, l.find? (fun x => x.incident_id == iid && x.active) = some d →
    updateOneIncidentActiveInc iid v l =
      some (l.map (fun x => if x.incident_id == iid && x.active then { x with affected := x.affected + v } else x)) := by
  intro l
  induction l with
  | nil => intro _ d h; cases h
  | cons x rest ih =>
    intro hnd d hfind
    have hnd2 : (rest.map (fun d => d.incident_id)).Nodup := (List.nodup_cons.1 hnd).2
    by_cases hx : (x.incident_id == iid && x.active) = true
    · have hxid : (x.incident_id == iid) = true := (Bool.and_eq_true _ _ ▸ hx).1
      have hrest : rest.map (fun y => if y.incident_id == iid && y.active then { y with affected := y.affected + v } else y) = rest := by
        have hids : x.incident_id ∉ rest.map (fun d => d.incident_id) := (List.nodup_cons.1 hnd).1
        have hcong : ∀ y ∈ rest, (if y.incident_id == iid && y.active then { y with affected := y.affected + v } else y) = id y := by
          intro y hy
          have hyne : (y.incident_id == iid && y.active) = false := by
            cases hb : (y.incident_id == iid && y.active) with
            | false => rfl
            | true =>
              exfalso
              have hbid : (y.incident_id == iid) = true := (Bool.and_eq_true _ _ ▸ hb).1
              apply hids
              rw [eq_of_beq hxid, ← eq_of_beq hbid]
              exact List.mem_map.2 ⟨y, hy, rfl⟩
          simp [hyne]
        rw [List.map_congr_left hcong, List.map_id]
      simp only [updateOneIncidentActiveInc, hx, if_true, List.map_cons, if_pos hx, hrest]
    · have hx2 : (x.incident_id == iid && x.active) = false := Bool.eq_false_iff.2 hx
      have hfind2 : rest.find? (fun y => y.incident_id == iid && y.active) = some d := by
        rw [List.find?_cons_of_neg _ (by simp [hx2])] at hfind
        exact hfind
      simp only [updateOneIncidentActiveInc, hx2, Bool.false_eq_true, if_false,
        ih hnd2 d hfind2, List.map_cons, if_neg hx]

/-- Under distinct incident ids, a member with the sought id is what
find_one on the id returns. -/
theorem find_incident_by_id (iid : String) :
    ∀ l : List Incident, (l.map (fun d => d.incident_id)).Nodup →
    ∀ d, d ∈ l → d.incident_id = iid →
    l.find? (fun x => x.incident_id == iid) = some d := by
  intro l
  induction l with
  | nil => intro _ d h _; cases h
  | cons x rest ih =>
    intro hnd d hmem hid
    rcases List.mem_cons.1 hmem with heq | htail
    · subst heq
      exact List.find?_cons_of_pos rest (by simp [hid])
    · have hxne : (x.incident_id == iid) = false := by
        cases hb : (x.incident_id == iid) with
        | false => rfl
        | true =>
          exfalso
          apply (List.nodup_cons.1 hnd).1
          show x.incident_id ∈ rest.map (fun d => d.incident_id)
          rw [eq_of_beq hb, ← hid]
          exact List.mem_map.2 ⟨d, htail, rfl⟩
      rw [List.find?_cons_of_neg _ (by simp [hxne])]
      exact ih (List.nodup_cons.1 hnd).2 d htail hid

/-- find_one by id commutes with an id-preserving map. -/
theorem find_incident_map (iid : String) (g : Incident → Incident)
    (hg : ∀ x, (g x).incident_id = x.incident_id) :
    ∀ l : List Incident, ∀ d, l.find? (fun x => x.incident_id == iid) = some d →
    (l.map g).find? (fun x => x.incident_id == iid) = some (g d) := by
  intro l
  induction l with
  | nil => intro d h; cases h
  | cons x rest ih =>
    intro d hfind
    by_cases hx : (x.incident_id == iid) = true
    · rw [List.find?_cons_of_pos rest hx] at hfind
      cases hfind
      rw [List.map_cons]
      exact List.find?_cons_of_pos _ (by rw [hg]; exact hx)
    · have hx2 : (x.incident_id == iid) = false := Bool.eq_false_iff.2 hx
      rw [List.find?_cons_of_neg _ (by simp [hx2])] at hfind
      rw [List.map_cons]
      rw [List.find?_cons_of_neg _ (by rw [hg]; simp [hx2])]
      exact ih d hfind

/-- The empty collection satisfies the canonical-identifier invariant. -/
theorem kbIdsCanonical_nil : kbIdsCanonical [] := rfl

/-- Appending a document whose id is KB-(size+1) preserves the
canonical-identifier invariant. -/
theorem kbIdsCanonical_append (kb : List KBArticle) (doc : KBArticle)
    (hc : kbIdsCanonical kb) (hid : doc.article_id = "KB-" ++ pad3 (kb.length + 1)) :
    kbIdsCanonical (kb ++ [doc]) := by
  unfold kbIdsCanonical at hc ⊢
  rw [List.map_append, hc, List.length_append]
  have hlen : kb.length + [doc].length = kb.length + 1 := rfl
  rw [hlen, List.range_succ, List.map_append]
  simp [hid]

/-- The per-article upload loop preserves the canonical-identifier
invariant. -/
theorem upload_canonical (filename : String) (now : Nat) :
    ∀ (arts : List JVal) (kb : List KBArticle), kbIdsCanonical kb →
    kbIdsCanonical (upload_save_articles filename now kb arts).1 := by
  intro arts
  induction arts with
  | nil => intro kb hc; exact hc
  | cons art rest ih =>
    intro kb hc
    show kbIdsCanonical (upload_save_articles filename now (kb ++ [_]) rest).1
    exact ih _ (kbIdsCanonical_append kb _ hc rfl)

/-- Applying any deletion-free operation sequence preserves the
canonical-identifier invariant. -/
theorem applyKBOps_canonical (now : Nat) : ∀ (ops : List KBOp) (kb : List KBArticle),
    kbIdsCanonical kb → kbIdsCanonical (applyKBOps now kb ops) := by
  intro ops
  induction ops with
  | nil => intro kb hc; exact hc
  | cons op rest ih =>
    intro kb hc
    apply ih
    cases op with
    | createArticle t c g tags => exact kbIdsCanonical_append kb _ hc rfl
    | uploadDoc f arts => exact upload_canonical f now arts kb hc

/-- The canonical KB identifier map is injective. -/
theorem kbId_inj : Function.Injective (fun i => "KB-" ++ pad3 (i + 1)) := by
  intro i j h
  have hd : ("KB-" ++ pad3 (i + 1)).data = ("KB-" ++ pad3 (j + 1)).data :=
    congrArg String.data h
  rw [strData_append, strData_append] at hd
  have hp : (pad3 (i + 1)).data = (pad3 (j + 1)).data := List.append_cancel_left hd
  have hv := congrArg digitsToNat hp
  rw [digitsToNat_pad3, digitsToNat_pad3] at hv
  omega

/-- Canonical KB identifiers decode to their allocation index. -/
theorem kbSuffix_kbId (n : Nat) : kbSuffix ("KB-" ++ pad3 n) = n := by
  unfold kbSuffix
  have hdrop : (("KB-" ++ pad3 n).data).drop 3 = (pad3 n).data := rfl
  rw [hdrop, digitsToNat_pad3]

/-- Unfolding of one retry-loop iteration on well-formed create_ticket
arguments. -/
theorem createAttempts_step (insert : String → InsertOutcome) (M attempt : Nat)
    (rest : List Nat) (t d p c : String) :
    createAttempts insert M (mkCreateArgs t d p c) (attempt :: rest) =
      match insert (candidateTicketId M attempt) with
      | .ok => .ok (createSuccessObj (candidateTicketId M attempt) t p)
      | .err msg =>
          if isDuplicateKeyError msg = true ∧ attempt < 2 then
            createAttempts insert M (mkCreateArgs t d p c) rest
          else .ok (createFailObj msg) := rfl

/-- C1: with the maximal stored suffix M = scanLastNum ids, the handler
attempts insertion with identifier TKT-(M+1+attempt) zero-padded to three
digits for attempt = 0, 1, 2; a duplicate-key failure retries with the next
candidate, any other failure is reported immediately as a success-false
result without retrying, after three failed attempts a failure is reported,
and on success the result carries success, ticket_id and a message embedding
the title and priority.  The conclusion equates the handler with the
spec-side case analysis specCreateResult of the three insertion outcomes. -/
theorem c1_create_ticket_retry_behavior
    (insert : String → InsertOutcome) (ids : List String)
    (title description priority category : String) (o0 o1 o2 : InsertOutcome)
    (h0 : insert (candidateTicketId (scanLastNum ids) 0) = o0)
    (h1 : insert (candidateTicketId (scanLastNum ids) 1) = o1)
    (h2 : insert (candidateTicketId (scanLastNum ids) 2) = o2) :
    handle_create_ticket insert ids (mkCreateArgs title description priority category) =
      .ok (specCreateResult title priority (scanLastNum ids) o0 o1 o2) := by
  unfold handle_create_ticket
  rw [createAttempts_step, h0]
  cases o0 with
  | ok => rfl
  | err m0 =>
    dsimp only
    by_cases hd0 : isDuplicateKeyError m0 = true
    · rw [if_pos ⟨hd0, by omega⟩, createAttempts_step, h1]
      cases o1 with
      | ok => simp [specCreateResult, hd0]
      | err m1 =>
        dsimp only
        by_cases hd1 : isDuplicateKeyError m1 = true
        · rw [if_pos ⟨hd1, by omega⟩, createAttempts_step, h2]
          cases o2 with
          | ok => simp [specCreateResult, hd0, hd1]
          | err m2 =>
            dsimp only
            rw [if_neg (fun hcon => absurd hcon.2 (by omega))]
            simp [specCreateResult, hd0, hd1]
        · rw [if_neg (fun hcon => hd1 hcon.1)]
          simp [specCreateResult, hd0, hd1]
    · rw [if_neg (fun hcon => hd0 hcon.1)]
      simp [specCreateResult, hd0]

/-- Witness for C1 at a concrete store and oracle: the store holds TKT-001,
the first candidate TKT-002 hits a duplicate-key conflict, and the retry
succeeds with TKT-003. -/
theorem c1_create_ticket_retry_behavior_witness :
    handle_create_ticket
      (fun tid => if tid == "TKT-002" then .err "E11000 duplicate key error" else .ok)
      ["TKT-001"] (mkCreateArgs "Printer offline" "It is broken" "low" "hardware") =
      .ok (specCreateResult "Printer offline" "low" 1
            (.err "E11000 duplicate key error") .ok .ok) :=
  c1_create_ticket_retry_behavior _ ["TKT-001"] "Printer offline" "It is broken" "low"
    "hardware" (.err "E11000 duplicate key error") .ok .ok rfl rfl rfl

/-- Unfolding of one retry-loop iteration on arbitrary arguments. -/
theorem createAttempts_cons (insert : String → InsertOutcome) (M attempt : Nat)
    (rest : List Nat) (args : JVal) :
    createAttempts insert M args (attempt :: rest) =
      match args.get "title" with
      | none => .error "KeyError: title"
      | some titleV =>
        match args.get "description" with
        | none => .error "KeyError: description"
        | some _ =>
          match insert (candidateTicketId M attempt) with
          | .ok => .ok (createSuccessObj (candidateTicketId M attempt) (pyStr titleV)
                         (pyStr ((args.get "priority").getD (.s "medium"))))
          | .err msg =>
            if isDuplicateKeyError msg = true ∧ attempt < 2 then
              createAttempts insert M args rest
            else .ok (createFailObj msg) := rfl

/-- The success message never equals the post-loop failure message. -/
theorem createSuccess_msg_ne (tid t p : String) :
    "Ticket " ++ tid ++ " created successfully. Title: " ++ t ++ ". Priority: " ++ p ++ "." ≠
      "Failed to create ticket after multiple attempts." := by
  intro h
  have hd := congrArg String.data h
  simp only [strData_append, List.append_assoc] at hd
  have h7 := congrArg (List.take ("Ticket ".data.length)) hd
  rw [List.take_left] at h7
  exact absurd h7 (by decide)

/-- The in-loop failure message never equals the post-loop failure
message, whatever the store error text. -/
theorem createFail_msg_ne (m : String) :
    "Failed to create ticket: " ++ m ≠ "Failed to create ticket after multiple attempts." := by
  intro h
  have hd := congrArg String.data h
  rw [strData_append] at hd
  have h25 := congrArg (List.take ("Failed to create ticket: ".data.length)) hd
  rw [List.take_left] at h25
  exact absurd h25 (by decide)

/-- When some attempt number in the remaining list is 2 or more, the retry
loop can only return a success result or an in-loop failure result: the
post-loop statement is unreachable. -/
theorem createAttempts_ok_message (insert : String → InsertOutcome) (M : Nat) (args : JVal) :
    ∀ attempts : List Nat, (∃ a ∈ attempts, ¬ a < 2) →
    ∀ r, createAttempts insert M args attempts = .ok r →
    (∃ tid t p, r = createSuccessObj tid t p) ∨ (∃ m, r = createFailObj m) := by
  intro attempts
  induction attempts with
  | nil => intro hex r hr; rcases hex with ⟨a, ha, _⟩; cases ha
  | cons a rest ih =>
    intro hex r hr
    rw [createAttempts_cons] at hr
    cases ht : args.get "title" with
    | none => rw [ht] at hr; simp at hr
    | some tv =>
      rw [ht] at hr
      cases hdsc : args.get "description" with
      | none => rw [hdsc] at hr; simp at hr
      | some dv =>
        rw [hdsc] at hr
        cases hins : insert (candidateTicketId M a) with
        | ok =>
          rw [hins] at hr
          dsimp only at hr
          left
          exact ⟨_, _, _, (Except.ok.inj hr).symm⟩
        | err m =>
          rw [hins] at hr
          dsimp only at hr
          by_cases hc : isDuplicateKeyError m = true ∧ a < 2
          · rw [if_pos hc] at hr
            rcases hex with ⟨b, hb, hb2⟩
            rcases List.mem_cons.1 hb with heq | htail
            · subst heq; exact absurd hc.2 hb2
            · exact ih ⟨b, htail, hb2⟩ r hr
          · rw [if_neg hc] at hr
            right
            exact ⟨m, (Except.ok.inj hr).symm⟩

/-- C10: handle_create_ticket always returns from inside the retry loop and
the post-loop result is unreachable: no success-shaped result ever carries
the post-loop message, and three consecutive duplicate-key conflicts yield
the generic in-loop failure result built from the third error. -/
theorem c10_postloop_unreachable (insert : String → InsertOutcome) (ids : List String)
    (args : JVal) :
    (∀ r, handle_create_ticket insert ids args = .ok r →
        r.get "message" ≠ some (.s "Failed to create ticket after multiple attempts."))
    ∧ (∀ m0 m1 m2,
        insert (candidateTicketId (scanLastNum ids) 0) = .err m0 →
        insert (candidateTicketId (scanLastNum ids) 1) = .err m1 →
        insert (candidateTicketId (scanLastNum ids) 2) = .err m2 →
        isDuplicateKeyError m0 = true → isDuplicateKeyError m1 = true →
        isDuplicateKeyError m2 = true →
        (args.get "title").isSome → (args.get "description").isSome →
        handle_create_ticket insert ids args = .ok (createFailObj m2)) := by
  constructor
  · intro r hr hmsg
    rcases createAttempts_ok_message insert (scanLastNum ids) args [0, 1, 2]
        ⟨2, by simp, by omega⟩ r hr with ⟨tid, t, p, rfl⟩ | ⟨m, rfl⟩
    · have h1 : some (JVal.s ("Ticket " ++ tid ++ " created successfully. Title: " ++ t ++
          ". Priority: " ++ p ++ ".")) =
          some (JVal.s "Failed to create ticket after multiple attempts.") := hmsg
      injection h1 with h2
      injection h2 with h3
      exact createSuccess_msg_ne tid t p h3
    · have h1 : some (JVal.s ("Failed to create ticket: " ++ m)) =
          some (JVal.s "Failed to create ticket after multiple attempts.") := hmsg
      injection h1 with h2
      injection h2 with h3
      exact createFail_msg_ne m h3
  · intro m0 m1 m2 hm0 hm1 hm2 hd0 hd1 hd2 htitle hdesc
    obtain ⟨tv, ht⟩ := Option.isSome_iff_exists.1 htitle
    obtain ⟨dv, hdv⟩ := Option.isSome_iff_exists.1 hdesc
    unfold handle_create_ticket
    rw [createAttempts_cons, ht, hdv, hm0]
    dsimp only
    rw [if_pos ⟨hd0, by omega⟩, createAttempts_cons, ht, hdv, hm1]
    dsimp only
    rw [if_pos ⟨hd1, by omega⟩, createAttempts_cons, ht, hdv, hm2]
    dsimp only
    rw [if_neg (fun hcon => absurd hcon.2 (by omega))]

/-- Witness for C10: a store oracle that always reports a duplicate-key
conflict makes the handler return the generic in-loop failure built from
the third error, and that result does not carry the post-loop message. -/
theorem c10_postloop_unreachable_witness :
    handle_create_ticket (fun _ => .err "E11000 duplicate key error") ["TKT-001"]
      (mkCreateArgs "VPN down" "Cannot connect" "high" "network") =
      .ok (createFailObj "E11000 duplicate key error") :=
  (c10_postloop_unreachable (fun _ => .err "E11000 duplicate key error") ["TKT-001"]
      (mkCreateArgs "VPN down" "Cannot connect" "high" "network")).2
    "E11000 duplicate key error" "E11000 duplicate key error" "E11000 duplicate key error"
    rfl rfl rfl rfl rfl rfl rfl rfl

/-- C2 counterexample: the claim that a deleted ticket identifier is never
recreated fails when the deleted ticket held the maximal suffix.  In a store
holding TKT-001 .. TKT-003, deleting TKT-003 and then calling create_ticket
(with the unique-index insertion semantics of the store) produces TKT-003
again: the suffix is derived from the live maximum, not a historical one. -/
theorem c2_deleted_max_id_reused_counterexample :
    delete_ticket
      [⟨"TKT-001", "VPN Connection Timeout", "d1", "high", "network", "in_progress", "u", 0, 0, none⟩,
       ⟨"TKT-002", "Outlook Not Syncing Emails", "d2", "medium", "email", "open", "u", 0, 0, none⟩,
       ⟨"TKT-003", "Printer Offline", "d3", "medium", "hardware", "resolved", "u", 0, 0, none⟩]
      "TKT-003" =
      some
      [⟨"TKT-001", "VPN Connection Timeout", "d1", "high", "network", "in_progress", "u", 0, 0, none⟩,
       ⟨"TKT-002", "Outlook Not Syncing Emails", "d2", "medium", "email", "open", "u", 0, 0, none⟩] ∧
    handle_create_ticket (mongoInsertOutcome ["TKT-001", "TKT-002"]) ["TKT-001", "TKT-002"]
      (mkCreateArgs "New issue" "Something broke" "medium" "general") =
      .ok (createSuccessObj "TKT-003" "New issue" "medium") :=
  ⟨rfl, rfl⟩

/-- C2 amended: after deleting a ticket, create_ticket never reuses the
deleted identifier provided some remaining ticket carries a suffix at least
as large as the deleted one (that is, the deleted ticket did not hold the
strict maximum).  When the strict-maximum ticket is deleted the identifier
is reused, as the counterexample shows. -/
theorem c2_no_reuse_when_not_max
    (tickets tickets2 : List Ticket) (deletedId : String)
    (title description priority category : String)
    (hdel : delete_ticket tickets deletedId = some tickets2)
    (hpat : matchesTicketPattern (pyUpper deletedId) = true)
    (kd : Nat) (hkd : parseTicketSuffix? (pyUpper deletedId) = some kd)
    (eId : String) (he : eId ∈ tickets2.map (fun t => t.ticket_id))
    (hepat : matchesTicketPattern eId = true)
    (ke : Nat) (hke : parseTicketSuffix? eId = some ke)
    (hle : kd ≤ ke) :
    handle_create_ticket (mongoInsertOutcome (tickets2.map (fun t => t.ticket_id)))
        (tickets2.map (fun t => t.ticket_id))
        (mkCreateArgs title description priority category) =
      .ok (createSuccessObj
            (candidateTicketId (scanLastNum (tickets2.map (fun t => t.ticket_id))) 0)
            title priority) ∧
    candidateTicketId (scanLastNum (tickets2.map (fun t => t.ticket_id))) 0 ≠
      pyUpper deletedId := by
  have hM : ke ≤ scanLastNum (tickets2.map (fun t => t.ticket_id)) :=
    scanLastNum_ge _ eId ke he hepat hke
  constructor
  · have hnm := candidate_not_mem (tickets2.map (fun t => t.ticket_id)) 0
    have hins : mongoInsertOutcome (tickets2.map (fun t => t.ticket_id))
        (candidateTicketId (scanLastNum (tickets2.map (fun t => t.ticket_id))) 0) = .ok := by
      unfold mongoInsertOutcome
      rw [if_neg (fun hc => hnm (List.elem_iff.1 hc))]
    unfold handle_create_ticket
    rw [createAttempts_step, hins]
  · intro heq
    have hpe := congrArg parseTicketSuffix? heq
    rw [parse_candidate, hkd] at hpe
    have := Option.some.inj hpe
    omega

/-- Witness for C2 amended: deleting the non-maximal TKT-002 from a store
holding TKT-001 .. TKT-003 and creating a ticket yields TKT-004, not the
deleted TKT-002. -/
theorem c2_no_reuse_when_not_max_witness :
    handle_create_ticket (mongoInsertOutcome ["TKT-001", "TKT-003"]) ["TKT-001", "TKT-003"]
        (mkCreateArgs "Laptop slow" "Very slow" "low" "general") =
      .ok (createSuccessObj (candidateTicketId (scanLastNum ["TKT-001", "TKT-003"]) 0)
            "Laptop slow" "low") ∧
    candidateTicketId (scanLastNum ["TKT-001", "TKT-003"]) 0 ≠ pyUpper "TKT-002" :=
  c2_no_reuse_when_not_max
    [⟨"TKT-001", "t1", "d1", "high", "network", "open", "u", 0, 0, none⟩,
     ⟨"TKT-002", "t2", "d2", "medium", "email", "open", "u", 0, 0, none⟩,
     ⟨"TKT-003", "t3", "d3", "medium", "hardware", "open", "u", 0, 0, none⟩]
    [⟨"TKT-001", "t1", "d1", "high", "network", "open", "u", 0, 0, none⟩,
     ⟨"TKT-003", "t3", "d3", "medium", "hardware", "open", "u", 0, 0, none⟩]
    "TKT-002" "Laptop slow" "Very slow" "low" "general"
    rfl rfl 2 rfl "TKT-003" (by simp) rfl 3 rfl (by omega)

/-- C4 counterexample: a valid-JSON frame that is not an object (here the
empty array) is dropped but terminates the pump: the allowed
response.create frame received after it is never forwarded, although the
same frame alone is forwarded.  This refutes the claim that receipt of a
non-forwarded frame never terminates the session. -/
theorem c4_nonobject_frame_terminates_counterexample :
    browser_to_xai [JVal.arr [], JVal.obj [("type", JVal.s "response.create")]] = [] ∧
    browser_to_xai [JVal.obj [("type", JVal.s "response.create")]] =
      [JVal.obj [("type", JVal.s "response.create")]] :=
  ⟨rfl, rfl⟩

/-- C4 amended: for every JSON object frame, the pump forwards it upstream
exactly when its declared type is in the allow-list, a frame of any other
declared type is silently dropped, and processing continues with the
remaining frames; a non-object JSON frame instead raises inside the loop
and terminates the pump, as the counterexample shows. -/
theorem c4_object_frame_allowlist (fields : List (String × JVal)) (rest : List JVal) :
    browser_to_xai (JVal.obj fields :: rest) =
      (if browserAllows (JVal.obj fields) then [JVal.obj fields] else []) ++
        browser_to_xai rest ∧
    (browserAllows (JVal.obj fields) = true ↔
      ∃ t, (JVal.obj fields).get "type" = some (JVal.s t) ∧ t ∈ allowedClientTypes) := by
  constructor
  · rfl
  · constructor
    · intro hall
      unfold browserAllows at hall
      cases hty : (JVal.obj fields).get "type" with
      | none => rw [hty] at hall; exact absurd hall (by simp)
      | some v =>
        rw [hty] at hall
        cases v with
        | null => exact absurd hall (by simp)
        | b x => exact absurd hall (by simp)
        | i x => exact absurd hall (by simp)
        | arr x => exact absurd hall (by simp)
        | obj x => exact absurd hall (by simp)
        | s t =>
          dsimp only at hall
          exact ⟨t, rfl, List.elem_iff.1 hall⟩
    · rintro ⟨t, hty, hmem⟩
      unfold browserAllows
      rw [hty]
      dsimp only
      exact List.elem_iff.2 hmem

/-- C5: for a dispatched function-call event (hashable tool name, so the
dispatch computes a result), the emitted frame sequence is exactly the
started notification to the browser, then the function_call_output
conversation item upstream, then the response continuation upstream, then
the executed notification to the browser — so started precedes executed and
the upstream output precedes the upstream continuation — and the loop
continues afterwards. -/
theorem c5_notification_ordering
    (jsonParse : String → Option JVal)
    (handlers : String → Option (JVal → Except String JVal))
    (event : JVal) (raw : String) (r : JVal)
    (htype : jvalIsStr (jget event "type" (.s ""))
      "response.function_call_arguments.done" = true)
    (hdr : dispatchResult handlers (jget event "name" (.s ""))
      (extractArgs jsonParse event) = some r) :
    processXaiEvent jsonParse handlers event raw =
      ([Frame.toBrowserJson (.obj [("type", .s "function.started"),
                                   ("function", jget event "name" (.s ""))]),
        Frame.toXai (.obj [("type", .s "conversation.item.create"),
                           ("item", .obj [("type", .s "function_call_output"),
                                          ("call_id", jget event "call_id" (.s "")),
                                          ("output", r)])]),
        Frame.toXai (.obj [("type", .s "response.create")]),
        Frame.toBrowserJson (.obj [("type", .s "function.executed"),
                                   ("function", jget event "name" (.s "")),
                                   ("args", extractArgs jsonParse event),
                                   ("result", r)])], true) := by
  cases event with
  | null => exact absurd htype (by decide)
  | b x =>
    rw [show jvalIsStr (jget (JVal.b x) "type" (JVal.s ""))
        "response.function_call_arguments.done" = false from rfl] at htype
    exact absurd htype Bool.false_ne_true
  | i x =>
    rw [show jvalIsStr (jget (JVal.i x) "type" (JVal.s ""))
        "response.function_call_arguments.done" = false from rfl] at htype
    exact absurd htype Bool.false_ne_true
  | s x =>
    rw [show jvalIsStr (jget (JVal.s x) "type" (JVal.s ""))
        "response.function_call_arguments.done" = false from rfl] at htype
    exact absurd htype Bool.false_ne_true
  | arr x =>
    rw [show jvalIsStr (jget (JVal.arr x) "type" (JVal.s ""))
        "response.function_call_arguments.done" = false from rfl] at htype
    exact absurd htype Bool.false_ne_true
  | obj fs =>
    unfold processXaiEvent
    rw [if_pos htype]
    dsimp only
    rw [hdr]

/-- Witness for C5 at a concrete event with a registered handler. -/
theorem c5_notification_ordering_witness :
    processXaiEvent (fun a => if a == "\x7b\x7d" then some (.obj []) else none)
      (fun nm => if nm == "ping" then some (fun _ => .ok (.obj [("success", .b true)])) else none)
      (.obj [("type", .s "response.function_call_arguments.done"),
             ("name", .s "ping"), ("call_id", .s "c-1"), ("arguments", .s "\x7b\x7d")])
      "RAW" =
      ([Frame.toBrowserJson (.obj [("type", .s "function.started"),
                                   ("function", .s "ping")]),
        Frame.toXai (.obj [("type", .s "conversation.item.create"),
                           ("item", .obj [("type", .s "function_call_output"),
                                          ("call_id", .s "c-1"),
                                          ("output", .obj [("success", .b true)])])]),
        Frame.toXai (.obj [("type", .s "response.create")]),
        Frame.toBrowserJson (.obj [("type", .s "function.executed"),
                                   ("function", .s "ping"),
                                   ("args", .obj []),
                                   ("result", .obj [("success", .b true)])])], true) :=
  c5_notification_ordering _ _ _ "RAW" (.obj [("success", .b true)]) rfl rfl

/-- Unfolding of one xai_to_browser loop iteration. -/
theorem xai_to_browser_cons (jsonParse : String → Option JVal)
    (handlers : String → Option (JVal → Except String JVal))
    (raw : String) (rest : List String) :
    xai_to_browser jsonParse handlers (raw :: rest) =
      match jsonParse raw with
      | none => []
      | some event =>
        match processXaiEvent jsonParse handlers event raw with
        | (frames, true) => frames ++ xai_to_browser jsonParse handlers rest
        | (frames, false) => frames := rfl

/-- C3: an upstream function-call event naming a tool absent from the
handler table produces the synthetic unknown-function error result instead
of raising; that result is still delivered through the full sequence of a
started notification downstream, the function_call_output item plus the
response continuation upstream, and an executed notification downstream,
and the relay loop continues processing subsequent frames (the session
stays open). -/
theorem c3_unknown_function_dispatch
    (jsonParse : String → Option JVal)
    (handlers : String → Option (JVal → Except String JVal))
    (event : JVal) (raw : String) (n : String)
    (htype : jvalIsStr (jget event "type" (.s ""))
      "response.function_call_arguments.done" = true)
    (hname : jget event "name" (.s "") = JVal.s n)
    (hlookup : handlers n = none)
    (hparse : jsonParse raw = some event) :
    processXaiEvent jsonParse handlers event raw =
      ([Frame.toBrowserJson (.obj [("type", .s "function.started"),
                                   ("function", .s n)]),
        Frame.toXai (.obj [("type", .s "conversation.item.create"),
                           ("item", .obj [("type", .s "function_call_output"),
                                          ("call_id", jget event "call_id" (.s "")),
                                          ("output", .obj [("error", .s ("Unknown function: " ++ n))])])]),
        Frame.toXai (.obj [("type", .s "response.create")]),
        Frame.toBrowserJson (.obj [("type", .s "function.executed"),
                                   ("function", .s n),
                                   ("args", extractArgs jsonParse event),
                                   ("result", .obj [("error", .s ("Unknown function: " ++ n))])])], true) ∧
    (∀ rest, xai_to_browser jsonParse handlers (raw :: rest) =
      [Frame.toBrowserJson (.obj [("type", .s "function.started"),
                                  ("function", .s n)]),
       Frame.toXai (.obj [("type", .s "conversation.item.create"),
                          ("item", .obj [("type", .s "function_call_output"),
                                         ("call_id", jget event "call_id" (.s "")),
                                         ("output", .obj [("error", .s ("Unknown function: " ++ n))])])]),
       Frame.toXai (.obj [("type", .s "response.create")]),
       Frame.toBrowserJson (.obj [("type", .s "function.executed"),
                                  ("function", .s n),
                                  ("args", extractArgs jsonParse event),
                                  ("result", .obj [("error", .s ("Unknown function: " ++ n))])])] ++
        xai_to_browser jsonParse handlers rest) := by
  have hdr : dispatchResult handlers (jget event "name" (.s ""))
      (extractArgs jsonParse event) =
      some (.obj [("error", .s ("Unknown function: " ++ n))]) := by
    rw [hname]
    unfold dispatchResult
    dsimp only
    rw [hlookup]
  have hproc : processXaiEvent jsonParse handlers event raw =
      ([Frame.toBrowserJson (.obj [("type", .s "function.started"),
                                   ("function", .s n)]),
        Frame.toXai (.obj [("type", .s "conversation.item.create"),
                           ("item", .obj [("type", .s "function_call_output"),
                                          ("call_id", jget event "call_id" (.s "")),
                                          ("output", .obj [("error", .s ("Unknown function: " ++ n))])])]),
        Frame.toXai (.obj [("type", .s "response.create")]),
        Frame.toBrowserJson (.obj [("type", .s "function.executed"),
                                   ("function", .s n),
                                   ("args", extractArgs jsonParse event),
                                   ("result", .obj [("error", .s ("Unknown function: " ++ n))])])], true) := by
    cases event with
    | null => exact absurd htype (by decide)
    | b x =>
      rw [show jvalIsStr (jget (JVal.b x) "type" (JVal.s ""))
          "response.function_call_arguments.done" = false from rfl] at htype
      exact absurd htype Bool.false_ne_true
    | i x =>
      rw [show jvalIsStr (jget (JVal.i x) "type" (JVal.s ""))
          "response.function_call_arguments.done" = false from rfl] at htype
      exact absurd htype Bool.false_ne_true
    | s x =>
      rw [show jvalIsStr (jget (JVal.s x) "type" (JVal.s ""))
          "response.function_call_arguments.done" = false from rfl] at htype
      exact absurd htype Bool.false_ne_true
    | arr x =>
      rw [show jvalIsStr (jget (JVal.arr x) "type" (JVal.s ""))
          "response.function_call_arguments.done" = false from rfl] at htype
      exact absurd htype Bool.false_ne_true
    | obj fs =>
      rw [← hname]
      unfold processXaiEvent
      rw [if_pos htype]
      dsimp only
      rw [hdr]
  refine ⟨hproc, ?_⟩
  intro rest
  rw [xai_to_browser_cons, hparse]
  dsimp only
  rw [hproc]

/-- Witness for C3 at a concrete event naming an unregistered tool. -/
theorem c3_unknown_function_dispatch_witness :
    processXaiEvent (fun s => if s == "EV" then
        some (.obj [("type", .s "response.function_call_arguments.done"),
                    ("name", .s "mystery_tool"), ("call_id", .s "c-7"),
                    ("arguments", .s "not json")]) else none)
      (fun _ => none)
      (.obj [("type", .s "response.function_call_arguments.done"),
             ("name", .s "mystery_tool"), ("call_id", .s "c-7"),
             ("arguments", .s "not json")])
      "EV" =
      ([Frame.toBrowserJson (.obj [("type", .s "function.started"),
                                   ("function", .s "mystery_tool")]),
        Frame.toXai (.obj [("type", .s "conversation.item.create"),
                           ("item", .obj [("type", .s "function_call_output"),
                                          ("call_id", .s "c-7"),
                                          ("output", .obj [("error", .s "Unknown function: mystery_tool")])])]),
        Frame.toXai (.obj [("type", .s "response.create")]),
        Frame.toBrowserJson (.obj [("type", .s "function.executed"),
                                   ("function", .s "mystery_tool"),
                                   ("args", .obj []),
                                   ("result", .obj [("error", .s "Unknown function: mystery_tool")])])], true) ∧
    xai_to_browser (fun s => if s == "EV" then
        some (.obj [("type", .s "response.function_call_arguments.done"),
                    ("name", .s "mystery_tool"), ("call_id", .s "c-7"),
                    ("arguments", .s "not json")]) else none)
      (fun _ => none) ["EV", "OTHER"] =
      [Frame.toBrowserJson (.obj [("type", .s "function.started"),
                                  ("function", .s "mystery_tool")]),
       Frame.toXai (.obj [("type", .s "conversation.item.create"),
                          ("item", .obj [("type", .s "function_call_output"),
                                         ("call_id", .s "c-7"),
                                         ("output", .obj [("error", .s "Unknown function: mystery_tool")])])]),
       Frame.toXai (.obj [("type", .s "response.create")]),
       Frame.toBrowserJson (.obj [("type", .s "function.executed"),
                                  ("function", .s "mystery_tool"),
                                  ("args", .obj []),
                                  ("result", .obj [("error", .s "Unknown function: mystery_tool")])])] ++
        xai_to_browser (fun s => if s == "EV" then
            some (.obj [("type", .s "response.function_call_arguments.done"),
                        ("name", .s "mystery_tool"), ("call_id", .s "c-7"),
                        ("arguments", .s "not json")]) else none)
          (fun _ => none) ["OTHER"] :=
  ⟨(c3_unknown_function_dispatch
      (fun s => if s == "EV" then
          some (.obj [("type", .s "response.function_call_arguments.done"),
                      ("name", .s "mystery_tool"), ("call_id", .s "c-7"),
                      ("arguments", .s "not json")]) else none)
      (fun _ => none)
      (.obj [("type", .s "response.function_call_arguments.done"),
             ("name", .s "mystery_tool"), ("call_id", .s "c-7"),
             ("arguments", .s "not json")])
      "EV" "mystery_tool" rfl rfl rfl rfl).1,
   (c3_unknown_function_dispatch
      (fun s => if s == "EV" then
          some (.obj [("type", .s "response.function_call_arguments.done"),
                      ("name", .s "mystery_tool"), ("call_id", .s "c-7"),
                      ("arguments", .s "not json")]) else none)
      (fun _ => none)
      (.obj [("type", .s "response.function_call_arguments.done"),
             ("name", .s "mystery_tool"), ("call_id", .s "c-7"),
             ("arguments", .s "not json")])
      "EV" "mystery_tool" rfl rfl rfl rfl).2 ["OTHER"]⟩

/-- C6: add_me_to_priority_incident uppercases the incident id; when no
active incident matches, it reports the structured not-found result and
every counter (indeed the whole store) is unchanged; when an active
incident matches, exactly the incidents carrying that id (a single one,
since ids are distinct) get their affected counter incremented by exactly
one, every other incident is untouched, and the result carries the new
count and a confirmation naming the incident title. -/
theorem c6_add_me_to_priority_incident_behavior
    (incidents : List Incident) (args : JVal) (raw : String)
    (hargs : args.get "incident_id" = some (JVal.s raw))
    (hnd : (incidents.map (fun d => d.incident_id)).Nodup) :
    (incidents.find? (fun d => d.incident_id == pyUpper raw && d.active) = none →
      handle_add_me_to_priority_incident incidents args =
        .ok (.obj [("success", .b false),
                   ("message", .s ("Incident " ++ pyUpper raw ++
                                   " not found or is no longer active."))], incidents)) ∧
    (∀ d, incidents.find? (fun x => x.incident_id == pyUpper raw && x.active) = some d →
      handle_add_me_to_priority_incident incidents args =
        .ok (.obj [("success", .b true),
                   ("incident_id", .s (pyUpper raw)),
                   ("title", .s d.title),
                   ("affected", .i (d.affected + 1)),
                   ("message", .s ("You" ++ apos ++ "ve been added as impacted on " ++
                                   pyUpper raw ++ " (" ++ d.title ++
                                   "). Total impacted users: " ++
                                   toString (d.affected + 1) ++ "."))],
             incidents.map (fun x => if x.incident_id == pyUpper raw
               then { x with affected := x.affected + 1 } else x))) := by
  constructor
  · intro hnone
    unfold handle_add_me_to_priority_incident
    rw [hargs]
    dsimp only
    rw [hnone]
  · intro d hfound
    unfold handle_add_me_to_priority_incident
    rw [hargs]
    dsimp only
    rw [hfound]
    dsimp only
    rw [updateOneIncidentInc_eq_map (pyUpper raw) 1 incidents hnd]

/-- Witness for C6 at a concrete store with one active incident, using a
lower-case id on the wire. -/
theorem c6_add_me_to_priority_incident_behavior_witness :
    handle_add_me_to_priority_incident
      [⟨"INC-0091", "critical", "Email outage", "in_progress", "09:14 AM", 142, "dsc", true⟩]
      (.obj [("incident_id", .s "inc-0091")]) =
      .ok (.obj [("success", .b true),
                 ("incident_id", .s (pyUpper "inc-0091")),
                 ("title", .s "Email outage"),
                 ("affected", .i ((142 : Int) + 1)),
                 ("message", .s ("You" ++ apos ++ "ve been added as impacted on " ++
                                 pyUpper "inc-0091" ++ " (" ++ "Email outage" ++
                                 "). Total impacted users: " ++
                                 toString ((142 : Int) + 1) ++ "."))],
           [⟨"INC-0091", "critical", "Email outage", "in_progress", "09:14 AM", 142, "dsc", true⟩].map
             (fun x => if x.incident_id == pyUpper "inc-0091"
               then { x with affected := x.affected + 1 } else x)) :=
  (c6_add_me_to_priority_incident_behavior
    [⟨"INC-0091", "critical", "Email outage", "in_progress", "09:14 AM", 142, "dsc", true⟩]
    (.obj [("incident_id", .s "inc-0091")]) "inc-0091" rfl (by simp)).2
    ⟨"INC-0091", "critical", "Email outage", "in_progress", "09:14 AM", 142, "dsc", true⟩ rfl

/-- C7: update_ticket_status uppercases the ticket id before lookup; when no
document matches it reports not-found and the store is unchanged; on a
match, the matched ticket (unique, since ids are distinct) gets its status
set and its updated_at timestamp refreshed, its resolution is set exactly
when a nonempty note was supplied, and every other field of the ticket and
every other ticket are left unchanged (visible in the record-update form of
the conclusion). -/
theorem c7_update_ticket_status_frame_effect
    (tickets : List Ticket) (args : JVal) (rawId st : String) (now : Nat)
    (hid : args.get "ticket_id" = some (JVal.s rawId))
    (hst : args.get "status" = some (JVal.s st))
    (hnd : (tickets.map (fun d => d.ticket_id)).Nodup) :
    (tickets.find? (fun x => x.ticket_id == pyUpper rawId) = none →
      handle_update_ticket_status tickets args now =
        .ok (.obj [("success", .b false),
                   ("message", .s ("Ticket " ++ pyUpper rawId ++ " not found."))], tickets)) ∧
    (∀ t, tickets.find? (fun x => x.ticket_id == pyUpper rawId) = some t →
      handle_update_ticket_status tickets args now =
        .ok (.obj [("success", .b true),
                   ("message", .s ("Ticket " ++ pyUpper rawId ++ " updated to status: " ++
                                   st ++ "."))],
             tickets.map (fun x => if x.ticket_id == pyUpper rawId
               then (if noteArg args ≠ "" then
                       { x with status := st, updated_at := now, resolution := some (noteArg args) }
                     else { x with status := st, updated_at := now })
               else x))) := by
  constructor
  · intro hnone
    unfold handle_update_ticket_status
    rw [hid]
    dsimp only
    rw [hst]
    dsimp only
    rw [updateOneTicket_eq_none (pyUpper rawId) st (noteArg args) now tickets hnone]
  · intro t hfound
    unfold handle_update_ticket_status
    rw [hid]
    dsimp only
    rw [hst]
    dsimp only
    rw [updateOneTicket_eq_map (pyUpper rawId) st (noteArg args) now tickets hnd t hfound]
    rfl

/-- Witness for C7 matching the spec example: a lower-case tkt-001 input
resolves TKT-001 with resolution note fixed. -/
theorem c7_update_ticket_status_frame_effect_witness :
    handle_update_ticket_status
      [⟨"TKT-001", "VPN Connection Timeout", "d1", "high", "network", "in_progress", "John Smith", 3, 3, none⟩]
      (.obj [("ticket_id", .s "tkt-001"), ("status", .s "resolved"), ("note", .s "fixed")]) 9 =
      .ok (.obj [("success", .b true),
                 ("message", .s ("Ticket " ++ pyUpper "tkt-001" ++ " updated to status: " ++
                                 "resolved" ++ "."))],
           [⟨"TKT-001", "VPN Connection Timeout", "d1", "high", "network", "in_progress", "John Smith", 3, 3, none⟩].map
             (fun x => if x.ticket_id == pyUpper "tkt-001"
               then (if noteArg (.obj [("ticket_id", .s "tkt-001"), ("status", .s "resolved"), ("note", .s "fixed")]) ≠ "" then
                       { x with status := "resolved", updated_at := 9,
                                resolution := some (noteArg (.obj [("ticket_id", .s "tkt-001"), ("status", .s "resolved"), ("note", .s "fixed")])) }
                     else { x with status := "resolved", updated_at := 9 })
               else x)) :=
  (c7_update_ticket_status_frame_effect
    [⟨"TKT-001", "VPN Connection Timeout", "d1", "high", "network", "in_progress", "John Smith", 3, 3, none⟩]
    (.obj [("ticket_id", .s "tkt-001"), ("status", .s "resolved"), ("note", .s "fixed")])
    "tkt-001" "resolved" 9 rfl rfl (by simp)).2
    ⟨"TKT-001", "VPN Connection Timeout", "d1", "high", "network", "in_progress", "John Smith", 3, 3, none⟩ rfl

/-- C8 counterexample: the manual toggle endpoint applies a decrement with
no floor at zero.  One remove action on an active incident whose affected
counter is 0 drives the counter to -1, refuting the claim that the counter
never goes negative via the toggle path. -/
theorem c8_toggle_negative_counterexample :
    toggle_affected [⟨"INC-0100", "critical", "Outage", "open", "now", 0, "d", true⟩]
      "INC-0100" (.obj [("action", .s "remove")]) =
      .ok (.obj [("success", .b true), ("affected", .i (-1))],
           [⟨"INC-0100", "critical", "Outage", "open", "now", -1, "d", true⟩]) ∧
    ((-1 : Int) < 0) :=
  ⟨rfl, by decide⟩

/-- C8 amended: the toggle path changes the matched active incident by
exactly +1 for an add action and exactly -1 for any other action, with no
lower bound, touching no other incident; sequences of decrements can
therefore drive the counter negative, as the counterexample shows. -/
theorem c8_toggle_delta_no_floor
    (incidents : List Incident) (incident_id : String) (body : JVal) (d : Incident)
    (hnd : (incidents.map (fun x => x.incident_id)).Nodup)
    (hfound : incidents.find? (fun x => x.incident_id == pyUpper incident_id && x.active) =
      some d) :
    toggle_affected incidents incident_id body =
      .ok (.obj [("success", .b true),
                 ("affected", .i (d.affected +
                    (if jvalIsStr (jget body "action" (.s "add")) "add" then 1 else -1)))],
           incidents.map (fun x => if x.incident_id == pyUpper incident_id && x.active
             then { x with affected := x.affected +
                    (if jvalIsStr (jget body "action" (.s "add")) "add" then 1 else -1) }
             else x)) := by
  have hpred : (d.incident_id == pyUpper incident_id && d.active) = true :=
    List.find?_some (p := fun x : Incident => x.incident_id == pyUpper incident_id && x.active)
      hfound
  have hdid : d.incident_id = pyUpper incident_id :=
    eq_of_beq (Bool.and_eq_true _ _ ▸ hpred).1
  have hdmem : d ∈ incidents := List.mem_of_find?_eq_some hfound
  have hfind1 : incidents.find? (fun x => x.incident_id == pyUpper incident_id) = some d :=
    find_incident_by_id (pyUpper incident_id) incidents hnd d hdmem hdid
  unfold toggle_affected
  dsimp only
  generalize (if jvalIsStr (jget body "action" (JVal.s "add")) "add" then (1 : Int) else -1) = v
  rw [updateOneIncidentActiveInc_eq_map (pyUpper incident_id) v incidents hnd d hfound]
  dsimp only
  have hg : ∀ x : Incident,
      ((if x.incident_id == pyUpper incident_id && x.active
        then { x with affected := x.affected + v } else x) : Incident).incident_id =
        x.incident_id := by
    intro x
    split <;> rfl
  rw [find_incident_map (pyUpper incident_id) _ hg incidents d hfind1]
  dsimp only
  rw [if_pos hpred]

/-- Witness for C8 amended: a remove action on an active incident with
affected 5 yields 4 and leaves the rest of the store untouched. -/
theorem c8_toggle_delta_no_floor_witness :
    toggle_affected [⟨"INC-0100", "critical", "Outage", "open", "now", 5, "d", true⟩]
      "INC-0100" (.obj [("action", .s "remove")]) =
      .ok (.obj [("success", .b true),
                 ("affected", .i ((5 : Int) +
                    (if jvalIsStr (jget (.obj [("action", .s "remove")]) "action" (.s "add")) "add"
                     then 1 else -1)))],
           [⟨"INC-0100", "critical", "Outage", "open", "now", 5, "d", true⟩].map
             (fun x => if x.incident_id == pyUpper "INC-0100" && x.active
               then { x with affected := x.affected +
                      (if jvalIsStr (jget (.obj [("action", .s "remove")]) "action" (.s "add")) "add"
                       then 1 else -1) }
               else x)) :=
  c8_toggle_delta_no_floor
    [⟨"INC-0100", "critical", "Outage", "open", "now", 5, "d", true⟩]
    "INC-0100" (.obj [("action", .s "remove")])
    ⟨"INC-0100", "critical", "Outage", "open", "now", 5, "d", true⟩ (by simp) rfl

/-- C9 counterexample: knowledge-base identifier allocation uses the live
document count, so a deletion followed by a creation reuses an identifier:
with articles KB-001 and KB-002 stored, deleting KB-001 and creating a new
article allocates KB-002 again, duplicating an existing identifier (and not
exceeding the previously allocated suffix 2). -/
theorem c9_kb_id_reuse_counterexample :
    delete_kb_article
      [⟨"KB-001", "a1", "c1", "general", [], "preloaded", 0⟩,
       ⟨"KB-002", "a2", "c2", "general", [], "preloaded", 0⟩] "KB-001" =
      some [⟨"KB-002", "a2", "c2", "general", [], "preloaded", 0⟩] ∧
    (create_kb_article [⟨"KB-002", "a2", "c2", "general", [], "preloaded", 0⟩]
        "New article" "body" "general" [] 5).1.article_id = "KB-002" ∧
    "KB-002" ∈ ([⟨"KB-002", "a2", "c2", "general", [], "preloaded", 0⟩] : List KBArticle).map
      (fun a => a.article_id) :=
  ⟨rfl, rfl, by simp⟩

/-- C9 amended: over deletion-free operation sequences (creates and
uploads) starting from the empty collection, the stored identifiers are
exactly KB-001 .. KB-n in allocation order, hence pairwise distinct and
with strictly increasing numeric suffixes; with deletions the invariant
fails because allocation uses the live count, as the counterexample shows. -/
theorem c9_kb_ids_canonical_without_delete (now : Nat) (ops : List KBOp) :
    kbIdsCanonical (applyKBOps now [] ops) ∧
    ((applyKBOps now [] ops).map (fun a => a.article_id)).Nodup ∧
    List.Pairwise (fun a b => kbSuffix a < kbSuffix b)
      ((applyKBOps now [] ops).map (fun a => a.article_id)) := by
  have hc : kbIdsCanonical (applyKBOps now [] ops) :=
    applyKBOps_canonical now ops [] kbIdsCanonical_nil
  have hc2 : (applyKBOps now [] ops).map (fun a => a.article_id) =
      (List.range (applyKBOps now [] ops).length).map (fun i => "KB-" ++ pad3 (i + 1)) := hc
  refine ⟨hc, ?_, ?_⟩
  · rw [hc2]
    exact (List.nodup_range _).map kbId_inj
  · rw [hc2, List.pairwise_map]
    apply List.Pairwise.imp ?_ (List.pairwise_lt_range _)
    intro a b hab
    show kbSuffix ("KB-" ++ pad3 (a + 1)) < kbSuffix ("KB-" ++ pad3 (b + 1))
    rw [kbSuffix_kbId, kbSuffix_kbId]
    omega
